import Mathlib

/-!
Shallow embedding of `rac_signal_source_symbol_tracer.py`, an LLDB
synthetic-child-provider script for `RACPassthroughSubscriber` objects.

The state of the script lives in the host debugger (SBValue handles, the
selected target/process/thread/frame chain).  We embed the host objects as
structures whose fields are the host-provided methods the script actually
calls, and the Python class `RACSignalSourceSymbolTracer` as a structure
whose methods are written in explicit state-passing style (Python methods
receive a mutable `self`; our translation returns the possibly-updated
state alongside the result, which makes absence of mutation provable
rather than assumed).  Printing to the diagnostic output channel of the
debugger is modelled as a list of emitted lines.  Dynamic typing matters for
`get_child_index`, which adds `1` to an `SBValue` object: that operation
raises `TypeError` at runtime, which we model with `Except PyError`.
-/

/-- A leaf debugger value: name and evaluation error, as observed through
`GetName` and `GetError`.  `GetError = none` models Python `None`; `some s`
models an `SBError` whose `str()` is `s` (LLDB renders a successful error
object as the string "success"). -/
structure SBChild where
  name : String
  GetError : Option String
  deriving DecidableEq

/-- A stack frame, as used by the script: it can evaluate an expression. -/
structure Frame where
  EvaluateExpression : String → SBChild

/-- A thread: the script only reads its selected frame. -/
structure Thread where
  GetSelectedFrame : Frame

/-- A process: the script only reads its selected thread. -/
structure Process where
  GetSelectedThread : Thread

/-- A target: the script only reads its process. -/
structure Target where
  GetProcess : Process

/-- The global `lldb.debugger` object, root of the selected-context chain. -/
structure Debugger where
  GetSelectedTarget : Target

/-- The inspected object handle (`valobj`): the host-provided methods the
script calls on it.  `GetChildAtIndex` takes an arbitrary integer because
the adapter forwards whatever index it is handed (minus one) without bounds
validation; what the host does with it is up to the host. -/
structure SBValue where
  GetName : String
  GetNumChildren : Nat
  GetChildAtIndex : Int → SBChild
  GetChildMemberWithName : String → SBChild
  CreateValueFromExpression : String → String → SBChild

/-- `evaluateExpressionValue(expression, printErrors)` from the script:
re-resolves the selected frame from the debugger state passed in, evaluates
there, and prints the error when one is present and not "success".  The
second component is the list of lines printed. -/
def evaluateExpressionValue (debugger : Debugger) (expression : String)
    (printErrors : Bool) : SBChild × List String :=
  let frame :=
    debugger.GetSelectedTarget.GetProcess.GetSelectedThread.GetSelectedFrame
  let value := frame.EvaluateExpression expression
  if printErrors && !(value.GetError == none)
      && !(value.GetError.getD "success" == "success") then
    (value, [value.GetError.getD "success"])
  else
    (value, [])

/-- A Python runtime error raised during a method call. -/
inductive PyError where
  | typeError (msg : String)
  deriving DecidableEq

/-- Python evaluation of `sbvalue + 1`: `lldb.SBValue` defines no numeric
addition with an `int` (no `__add__`/`__radd__` accepting one), so the
interpreter raises `TypeError`.  Both operands are taken so the embedding
records exactly which expression the source builds. -/
def pyAddSBValueInt (v : SBChild) (n : Int) : Except PyError Int :=
  Except.error (PyError.typeError
    "unsupported operand types for +: SBValue and int")

/-- The class constant `SIGNAL_SOURCE_SYMBOL_CHILD_NAME`. -/
def SIGNAL_SOURCE_SYMBOL_CHILD_NAME : String := "signalSourceSymbol"

/-- The expression string built in `__init__`:
`"(NSString *)[%s signalInitializationSourceSymbol]" % valobj.GetName()`. -/
def constructionExpression (valobj : SBValue) : String :=
  "(NSString *)[" ++ valobj.GetName ++ " signalInitializationSourceSymbol]"

/-- The adapter instance: its two stored attributes, assigned in
`__init__`. -/
structure RACSignalSourceSymbolTracer where
  valobj : SBValue
  signalSourceMethodSymbol : SBChild

namespace RACSignalSourceSymbolTracer

/-- `__init__(self, valobj, dict)`: stores the handle and the result of
`valobj.CreateValueFromExpression(name, expr)`.  The global `debugger`
state is in scope for the constructor (as `lldb.debugger` is in Python)
but the source never reads it here: the expression is evaluated through
the handle itself, not through the selected-frame chain.  The second
component is the list of lines printed during construction (the source
prints nothing here). -/
def init (debugger : Debugger) (valobj : SBValue) :
    RACSignalSourceSymbolTracer × List String :=
  (⟨valobj,
    valobj.CreateValueFromExpression SIGNAL_SOURCE_SYMBOL_CHILD_NAME
      (constructionExpression valobj)⟩, [])

/-- `num_children(self)`: `self.valobj.GetNumChildren() + 1`. -/
def num_children (self : RACSignalSourceSymbolTracer) :
    Int × RACSignalSourceSymbolTracer :=
  ((self.valobj.GetNumChildren : Int) + 1, self)

/-- `get_child_index(self, name)`: `0` for the synthesized name, else
`self.valobj.GetChildMemberWithName(name) + 1` — which adds an `int` to an
`SBValue` object and therefore raises `TypeError`. -/
def get_child_index (self : RACSignalSourceSymbolTracer) (name : String) :
    Except PyError Int × RACSignalSourceSymbolTracer :=
  if name = SIGNAL_SOURCE_SYMBOL_CHILD_NAME then
    (Except.ok 0, self)
  else
    (pyAddSBValueInt (self.valobj.GetChildMemberWithName name) 1, self)

/-- `get_child_at_index(self, index)`: the stored synthesized field at
index 0, otherwise `self.valobj.GetChildAtIndex(index - 1)`. -/
def get_child_at_index (self : RACSignalSourceSymbolTracer) (index : Int) :
    SBChild × RACSignalSourceSymbolTracer :=
  if index = 0 then
    (self.signalSourceMethodSymbol, self)
  else
    (self.valobj.GetChildAtIndex (index - 1), self)

/-- `update(self)`: `pass` — no statement executes, the state is returned
unchanged. -/
def update (self : RACSignalSourceSymbolTracer) : RACSignalSourceSymbolTracer :=
  self

/-- `has_children(self)`: `return True`. -/
def has_children (self : RACSignalSourceSymbolTracer) :
    Bool × RACSignalSourceSymbolTracer :=
  (true, self)

end RACSignalSourceSymbolTracer

/-- One accessor call on an adapter instance, for reasoning about
sequences of host queries. -/
inductive AccessorOp where
  | numChildren
  | childIndex (name : String)
  | childAtIndex (index : Int)
  | refresh
  | hasChildren

/-- The state reached after performing one accessor call. -/
def runOp (self : RACSignalSourceSymbolTracer) (op : AccessorOp) :
    RACSignalSourceSymbolTracer :=
  match op with
  | AccessorOp.numChildren => (self.num_children).2
  | AccessorOp.childIndex n => (self.get_child_index n).2
  | AccessorOp.childAtIndex i => (self.get_child_at_index i).2
  | AccessorOp.refresh => self.update
  | AccessorOp.hasChildren => (self.has_children).2

/-! Concrete instances used by counterexamples and witnesses. -/

/-- A frame whose evaluations are tagged with a label, so evaluations in
different frames are distinguishable. -/
def taggedFrame (tag : String) : Frame :=
  ⟨fun e => ⟨tag ++ ":" ++ e, none⟩⟩

/-- A debugger state with the given selected frame. -/
def debuggerWithFrame (f : Frame) : Debugger :=
  ⟨⟨⟨⟨f⟩⟩⟩⟩

/-- A debugger state whose selected frame is tagged "frameA". -/
def debuggerA : Debugger := debuggerWithFrame (taggedFrame "frameA")

/-- A debugger state whose selected frame is tagged "frameB". -/
def debuggerB : Debugger := debuggerWithFrame (taggedFrame "frameB")

/-- A concrete inspected handle with two natural children, whose expression
evaluation succeeds. -/
def sampleValobj : SBValue where
  GetName := "subscriber"
  GetNumChildren := 2
  GetChildAtIndex := fun i => ⟨"childAt" ++ toString i, none⟩
  GetChildMemberWithName := fun n => ⟨"member:" ++ n, none⟩
  CreateValueFromExpression := fun n _ => ⟨n, none⟩

/-- A concrete inspected handle whose expression evaluation fails: the
created value carries an error. -/
def failingValobj : SBValue where
  GetName := "subscriber"
  GetNumChildren := 2
  GetChildAtIndex := fun i => ⟨"childAt" ++ toString i, none⟩
  GetChildMemberWithName := fun n => ⟨"member:" ++ n, none⟩
  CreateValueFromExpression := fun n _ =>
    ⟨n, some "error: could not evaluate expression"⟩

/-- C1: the claim says that for a name other than the synthesized one,
get_child_index returns the underlying name-to-index lookup result plus 1.
The code instead calls GetChildMemberWithName — a name-to-child-value
lookup returning an SBValue — and adds 1 to that object, which raises
TypeError.  Evaluated at the concrete name "a", the call errors rather
than returning any index. -/
theorem get_child_index_raises_typeError :
    ((RACSignalSourceSymbolTracer.init debuggerA sampleValobj).1.get_child_index "a").1
      = Except.error (PyError.typeError
          "unsupported operand types for +: SBValue and int") := by
  rfl

/-- C2 counterexample: construction does not evaluate the expression in
the freshly resolved selected frame.  Constructing against two debugger
states whose selected frames evaluate the construction expression to
different values yields identical adapters, and the stored synthesized
field differs from what the selected frame of either state would have
produced — the constructor goes through CreateValueFromExpression on the
handle and never reads the selected-context chain. -/
theorem construction_ignores_selected_frame :
    RACSignalSourceSymbolTracer.init debuggerA sampleValobj
        = RACSignalSourceSymbolTracer.init debuggerB sampleValobj
      ∧ (debuggerA.GetSelectedTarget.GetProcess.GetSelectedThread.GetSelectedFrame).EvaluateExpression
            (constructionExpression sampleValobj)
          ≠ (debuggerB.GetSelectedTarget.GetProcess.GetSelectedThread.GetSelectedFrame).EvaluateExpression
            (constructionExpression sampleValobj)
      ∧ (RACSignalSourceSymbolTracer.init debuggerA sampleValobj).1.signalSourceMethodSymbol
          ≠ (debuggerA.GetSelectedTarget.GetProcess.GetSelectedThread.GetSelectedFrame).EvaluateExpression
            (constructionExpression sampleValobj) := by
  refine ⟨rfl, ?_, ?_⟩ <;> decide

/-- C2 (amended): the evaluateExpressionValue helper re-resolves the
selected frame of the selected thread of the selected process from the
debugger state it is given on each call, and evaluates the expression in
that freshly resolved frame; the evaluation performed at construction does
not use this path — it goes through CreateValueFromExpression on the
handle and is independent of the debugger state. -/
theorem evaluateExpressionValue_fresh_frame
    (d d1 d2 : Debugger) (e : String) (b : Bool) (v : SBValue) :
    (evaluateExpressionValue d e b).1
        = (d.GetSelectedTarget.GetProcess.GetSelectedThread.GetSelectedFrame).EvaluateExpression e
      ∧ RACSignalSourceSymbolTracer.init d1 v
          = RACSignalSourceSymbolTracer.init d2 v := by
  constructor
  · simp only [evaluateExpressionValue]
    split <;> rfl
  · rfl

/-- C3 counterexample: when the expression evaluation performed at
construction fails, nothing is reported to the output channel — the
stored synthesized field carries an error, yet the list of lines printed
during construction is empty.  The error-printing path lives only in the
evaluateExpressionValue helper, which the constructor never calls. -/
theorem construction_failure_not_reported :
    ((RACSignalSourceSymbolTracer.init debuggerA failingValobj).1.signalSourceMethodSymbol).GetError
        ≠ none
      ∧ (RACSignalSourceSymbolTracer.init debuggerA failingValobj).2 = [] :=
  ⟨by decide, rfl⟩

/-- C3 (amended): if the expression evaluation performed during
construction fails, the failure is NOT reported to the output channel
(construction prints nothing); construction still does not abort and no
error is raised, the adapter stores the error-valued (not absent)
synthesized field, and has_children still succeeds with true. -/
theorem construction_failure_swallowed_silently (d : Debugger) (v : SBValue)
    (h : (v.CreateValueFromExpression SIGNAL_SOURCE_SYMBOL_CHILD_NAME
            (constructionExpression v)).GetError ≠ none) :
    (RACSignalSourceSymbolTracer.init d v).2 = []
      ∧ (RACSignalSourceSymbolTracer.init d v).1.signalSourceMethodSymbol
          = v.CreateValueFromExpression SIGNAL_SOURCE_SYMBOL_CHILD_NAME
              (constructionExpression v)
      ∧ ((RACSignalSourceSymbolTracer.init d v).1.signalSourceMethodSymbol).GetError ≠ none
      ∧ ((RACSignalSourceSymbolTracer.init d v).1.has_children).1 = true :=
  ⟨rfl, rfl, h, rfl⟩

/-- Witness for the amended C3 theorem at a concrete failing handle. -/
theorem construction_failure_swallowed_silently_witness :
    (failingValobj.CreateValueFromExpression SIGNAL_SOURCE_SYMBOL_CHILD_NAME
          (constructionExpression failingValobj)).GetError ≠ none
      ∧ ((RACSignalSourceSymbolTracer.init debuggerB failingValobj).2 = []
          ∧ (RACSignalSourceSymbolTracer.init debuggerB failingValobj).1.signalSourceMethodSymbol
              = failingValobj.CreateValueFromExpression SIGNAL_SOURCE_SYMBOL_CHILD_NAME
                  (constructionExpression failingValobj)
          ∧ ((RACSignalSourceSymbolTracer.init debuggerB failingValobj).1.signalSourceMethodSymbol).GetError ≠ none
          ∧ ((RACSignalSourceSymbolTracer.init debuggerB failingValobj).1.has_children).1 = true) :=
  ⟨by decide, construction_failure_swallowed_silently debuggerB failingValobj (by decide)⟩

/-- C4: on every constructed adapter, get_child_at_index 0 returns the
synthesized field computed at construction, and for every i in
[1, num_children), get_child_at_index i returns the underlying child at
i - 1. -/
theorem get_child_at_index_layout (d : Debugger) (v : SBValue) (i : Int)
    (h1 : 1 ≤ i)
    (h2 : i < ((RACSignalSourceSymbolTracer.init d v).1.num_children).1) :
    ((RACSignalSourceSymbolTracer.init d v).1.get_child_at_index 0).1
        = v.CreateValueFromExpression SIGNAL_SOURCE_SYMBOL_CHILD_NAME
            (constructionExpression v)
      ∧ ((RACSignalSourceSymbolTracer.init d v).1.get_child_at_index i).1
          = v.GetChildAtIndex (i - 1) := by
  constructor
  · rfl
  · have hne : i ≠ 0 := by omega
    simp [RACSignalSourceSymbolTracer.get_child_at_index,
      RACSignalSourceSymbolTracer.init, hne]

/-- Witness for C4 at a concrete handle with two children and i = 1. -/
theorem get_child_at_index_layout_witness :
    (1 : Int) ≤ 1
      ∧ (1 : Int) < ((RACSignalSourceSymbolTracer.init debuggerA sampleValobj).1.num_children).1
      ∧ (((RACSignalSourceSymbolTracer.init debuggerA sampleValobj).1.get_child_at_index 0).1
            = sampleValobj.CreateValueFromExpression SIGNAL_SOURCE_SYMBOL_CHILD_NAME
                (constructionExpression sampleValobj)
          ∧ ((RACSignalSourceSymbolTracer.init debuggerA sampleValobj).1.get_child_at_index 1).1
              = sampleValobj.GetChildAtIndex (1 - 1)) :=
  ⟨by decide, by decide,
    get_child_at_index_layout debuggerA sampleValobj 1 (by decide) (by decide)⟩

/-- C5: num_children returns exactly the underlying child count plus one,
for every inspected handle; it is a total operation with no failure mode
and it leaves the instance unchanged. -/
theorem num_children_is_underlying_plus_one (d : Debugger) (v : SBValue) :
    ((RACSignalSourceSymbolTracer.init d v).1.num_children).1
        = (v.GetNumChildren : Int) + 1
      ∧ ((RACSignalSourceSymbolTracer.init d v).1.num_children).2
          = (RACSignalSourceSymbolTracer.init d v).1 :=
  ⟨rfl, rfl⟩

/-- C6: get_child_index with the synthesized name returns 0 on every
adapter instance, whatever the underlying object looks like. -/
theorem get_child_index_synthesized_name (self : RACSignalSourceSymbolTracer) :
    (self.get_child_index "signalSourceSymbol").1 = Except.ok 0 := by
  rfl

/-- C7: get_child_at_index performs no bounds validation of its own — for
every integer i other than 0, including negative i and i past the child
count, it delegates directly to the underlying lookup at i - 1, and the
adapter itself raises nothing (the operation is total in the embedding). -/
theorem get_child_at_index_no_bounds_check (self : RACSignalSourceSymbolTracer)
    (i : Int) (h : i ≠ 0) :
    (self.get_child_at_index i).1 = self.valobj.GetChildAtIndex (i - 1) := by
  simp [RACSignalSourceSymbolTracer.get_child_at_index, h]

/-- Witness for C7 at the out-of-range negative index -3. -/
theorem get_child_at_index_no_bounds_check_witness :
    (-3 : Int) ≠ 0
      ∧ ((RACSignalSourceSymbolTracer.init debuggerA sampleValobj).1.get_child_at_index (-3)).1
          = sampleValobj.GetChildAtIndex (-3 - 1) :=
  ⟨by decide,
    get_child_at_index_no_bounds_check
      (RACSignalSourceSymbolTracer.init debuggerA sampleValobj).1 (-3) (by decide)⟩

/-- C8: update is a no-op, and for a constructed instance the value of
get_child_at_index 0 after any number of update calls is still the value
frozen at construction time. -/
theorem update_noop_child_zero_frozen (d : Debugger) (v : SBValue) (n : Nat) :
    RACSignalSourceSymbolTracer.update (RACSignalSourceSymbolTracer.init d v).1
        = (RACSignalSourceSymbolTracer.init d v).1
      ∧ ((Nat.iterate RACSignalSourceSymbolTracer.update n
            (RACSignalSourceSymbolTracer.init d v).1).get_child_at_index 0).1
          = v.CreateValueFromExpression SIGNAL_SOURCE_SYMBOL_CHILD_NAME
              (constructionExpression v) := by
  refine ⟨rfl, ?_⟩
  rw [Function.iterate_fixed rfl n]
  rfl

/-- C9: has_children returns true on every adapter instance, whether or
not the underlying object has children and whether or not the stored
synthesized field is error-valued. -/
theorem has_children_always_true (self : RACSignalSourceSymbolTracer) :
    (self.has_children).1 = true := by
  rfl

/-- C10: every accessor operation returns the instance state unchanged, so
any sequence of accessor calls observes the state stored at construction:
folding the state through an arbitrary list of operations is the
identity. -/
theorem accessors_leave_state_unchanged (self : RACSignalSourceSymbolTracer)
    (ops : List AccessorOp) :
    List.foldl runOp self ops = self := by
  induction ops generalizing self with
  | nil => rfl
  | cons op rest ih =>
      have h : runOp self op = self := by
        cases op <;>
          simp only [runOp, RACSignalSourceSymbolTracer.num_children,
            RACSignalSourceSymbolTracer.get_child_index,
            RACSignalSourceSymbolTracer.get_child_at_index,
            RACSignalSourceSymbolTracer.update,
            RACSignalSourceSymbolTracer.has_children] <;>
          first
          | rfl
          | (split <;> rfl)
      rw [List.foldl_cons, h]
      exact ih self
